import Mathlib

/-!
Shallow embedding of the Holostream signaling and connection-lifecycle core
(src/src/components/VideoCall/index.tsx and src/src/screens/CallScreen/index.tsx).

Conventions of the embedding:
* The JavaScript object `peerConnections.current` (string keys, unique) is an
  association list `List (String × PeerConn)`; `alookup`, `aset`, `aremove`
  model property read, assignment and `delete`.
* An `RTCPeerConnection` is modelled by the fields this code observes or
  mutates: whether `close()` was called, the local/remote session
  descriptions, how many times `setRemoteDescription` was invoked, the list
  of `addIceCandidate` calls that succeeded, and the senders created by
  `addTrack`.
* Asynchronous store and transport operations are pure: results the external
  transport produces (`createOffer`, `createAnswer`, `getUserMedia`) are
  passed in as parameters; fallible `addIceCandidate` returns `Except`.
* Firestore document state relevant to this component is the `Store`
  structure; a document write is a field update, a delete sets the field to
  `none` (deleting an absent Firestore document succeeds, so delete is total).
-/

namespace Holostream

/-- A session description as stored in offer/answer documents
(`sdp`, `type`). -/
structure SessionDesc where
  sdp : String
  descType : String
deriving DecidableEq

/-- An ICE candidate payload; `valid` models whether the transport's
`addIceCandidate` accepts it (an invalid one makes the call fail). -/
structure Candidate where
  payload : String
  valid : Bool
deriving DecidableEq

/-- A document of the `ice-candidates` collection: auto id, the publishing
slot's `participantId`, and the candidate payload. -/
structure CandDoc where
  docId : String
  participantId : String
  candidate : Candidate
deriving DecidableEq

/-- A media track as this code observes it (`kind`, `enabled`, stopped). -/
structure MediaTrack where
  kind : String
  enabled : Bool
  stopped : Bool
deriving DecidableEq

/-- A media stream: identifier plus its tracks. -/
structure MediaStream where
  id : String
  tracks : List MediaTrack
deriving DecidableEq

/-- The observable state of one `RTCPeerConnection` as used by this
component. -/
structure PeerConn where
  closed : Bool
  localDesc : Option SessionDesc
  remoteDesc : Option SessionDesc
  setRemoteCount : Nat
  addedCandidates : List Candidate
  senders : List MediaTrack
deriving DecidableEq

/-- `createPeerConnection` yields a fresh connection with every current
local track attached (`addTrack` loop at the end of the source function). -/
def newPeerConn (localTracks : List MediaTrack) : PeerConn :=
  { closed := false, localDesc := none, remoteDesc := none,
    setRemoteCount := 0, addedCandidates := [], senders := localTracks }

/-- Property read on a JavaScript object with string keys. -/
def alookup {β : Type} (k : String) : List (String × β) → Option β
  | [] => none
  | (k₁, v) :: m => if k₁ = k then some v else alookup k m

/-- Property assignment on a JavaScript object (overwrite in place, append
if absent). -/
def aset {β : Type} (k : String) (v : β) : List (String × β) → List (String × β)
  | [] => [(k, v)]
  | (k₁, v₁) :: m => if k₁ = k then (k₁, v) :: m else (k₁, v₁) :: aset k v m

/-- The JavaScript `delete obj[k]` operation. -/
def aremove {β : Type} (k : String) : List (String × β) → List (String × β)
  | [] => []
  | (k₁, v₁) :: m => if k₁ = k then aremove k m else (k₁, v₁) :: aremove k m

/-- The JavaScript `hay.includes(needle)` substring test, on char lists. -/
def containsSeg (needle : List Char) : List Char → Bool
  | [] => needle.isEmpty
  | c :: cs => needle.isPrefixOf (c :: cs) || containsSeg needle cs

/-- The JavaScript `hay.includes(needle)` substring test on strings; this is
how `handleParticipantLeft` decides which remote streams belong to a
participant (`stream.id.includes(participantId)`). -/
def strIncludes (hay needle : String) : Bool :=
  containsSeg needle.toList hay.toList

/-- Component state touched by `handleParticipantLeft` and the stream
lifecycle handlers: the peer-connection map, the live remote stream list
(the `remoteStreams` React state), the ref mirror `remoteStreamsRef.current`
of that list, and the stream render key. The mirror is written exactly once,
by the mount-time effect (dependency list `[roomId]`); no other code ever
assigns it. -/
structure CallState where
  peerConnections : List (String × PeerConn)
  remoteStreams : List MediaStream
  remoteStreamsSnapshot : List MediaStream
  streamsUpdateKey : Nat
deriving DecidableEq

/-- The mount-time effect line `remoteStreamsRef.current = remoteStreams`:
the sole assignment to the mirror, capturing whatever the live list holds
when the component mounts (initially empty). -/
def mountSyncStreamsRef (st : CallState) : CallState :=
  { st with remoteStreamsSnapshot := st.remoteStreams }

/-- The `ontrack` handler from `createPeerConnection`: append the inbound
stream to the live list unless a stream with the same id is already there.
It updates only the React state — `remoteStreamsRef.current` is not
touched. -/
def ontrackAdd (st : CallState) (ms : MediaStream) : CallState :=
  if st.remoteStreams.any (fun s => s.id == ms.id) then st
  else { st with remoteStreams := st.remoteStreams ++ [ms] }

/-- `handleParticipantLeft` from the source: if a connection for the slot
exists, close it (the returned list records which connections were closed)
and delete it from the map. Then compute `updatedStreams` by filtering
`remoteStreamsRef.current` — the stale mount-time mirror, not the live
list — dropping (and stopping the tracks of) every stream of the mirror
whose id includes the participant id, and overwrite the live list with that
result via `setRemoteStreams(updatedStreams)`; bump the render key. The
mirror itself is left stale. -/
def handleParticipantLeft (st : CallState) (participantId : String) :
    CallState × List String :=
  let updatedStreams :=
    st.remoteStreamsSnapshot.filter (fun ms => !(strIncludes ms.id participantId))
  match alookup participantId st.peerConnections with
  | some _ =>
      ({ peerConnections := aremove participantId st.peerConnections,
         remoteStreams := updatedStreams,
         remoteStreamsSnapshot := st.remoteStreamsSnapshot,
         streamsUpdateKey := st.streamsUpdateKey + 1 },
       [participantId])
  | none =>
      ({ peerConnections := st.peerConnections,
         remoteStreams := updatedStreams,
         remoteStreamsSnapshot := st.remoteStreamsSnapshot,
         streamsUpdateKey := st.streamsUpdateKey + 1 },
       [])

/-- The streams the code attributes to a slot: those whose id includes the
slot identifier. -/
def slotStreams (slot : String) (streams : List MediaStream) : List MediaStream :=
  streams.filter (fun ms => strIncludes ms.id slot)

/-- A freshly mounted component: connections for both slots exist, no
remote stream has arrived yet, and the mount-time effect has synced the
mirror while the live list was still empty. -/
def c1mount : CallState :=
  mountSyncStreamsRef
    { peerConnections :=
        [("broadcaster", newPeerConn []), ("viewer", newPeerConn [])],
      remoteStreams := [],
      remoteStreamsSnapshot := [],
      streamsUpdateKey := 0 }

/-- The healthy viewer slot's stream, arriving via `ontrack` after
mount. -/
def c1viewerStream : MediaStream := { id := "str-viewer-1", tracks := [] }

/-- The reachable state the C1 scenario starts from: the viewer's stream is
in the live list, while the mirror still holds the empty mount-time
snapshot. -/
def c1live : CallState := ontrackAdd c1mount c1viewerStream

/-- Claim C1 (code bug): evaluating the departure handler at the failing
input. Before, the healthy viewer slot holds one live stream; the
broadcaster slot then fails (`handleParticipantLeft "broadcaster"`). The
connection half behaves as claimed — exactly the broadcaster connection is
closed and deleted and the viewer's connection is untouched — but the
handler filters the stale mount-time mirror `remoteStreamsRef.current`
(still empty) instead of the live list and overwrites the live list with
the result, so the viewer's stream count drops from one to zero: the
claimed isolation of a healthy slot's streams fails. -/
theorem C1_stale_snapshot_wipes_healthy_streams :
    (slotStreams "viewer" c1live.remoteStreams).length = 1
    ∧ alookup "broadcaster"
        (handleParticipantLeft c1live "broadcaster").1.peerConnections = none
    ∧ (handleParticipantLeft c1live "broadcaster").2 = ["broadcaster"]
    ∧ alookup "viewer"
        (handleParticipantLeft c1live "broadcaster").1.peerConnections
      = alookup "viewer" c1live.peerConnections
    ∧ (handleParticipantLeft c1live "broadcaster").1.remoteStreams = []
    ∧ (slotStreams "viewer"
        (handleParticipantLeft c1live "broadcaster").1.remoteStreams).length = 0 := by
  decide

/-- The transport's `addIceCandidate`: appends one more application to the
connection when it accepts the candidate, fails otherwise. -/
def addIceCandidate (pc : PeerConn) (c : Candidate) : Except Unit PeerConn :=
  if c.valid then
    Except.ok { pc with addedCandidates := pc.addedCandidates ++ [c] }
  else Except.error ()

/-- One `added` change handled inside `setupICECandidateListener` or
`addExistingICECandidates`: the store-side query keeps only documents whose
`participantId` equals the peer slot; `addIceCandidate` is wrapped in a
try/catch that only logs. -/
def applyCandDocCaught (slot : String) (pc : PeerConn) (d : CandDoc) : PeerConn :=
  if d.participantId = slot then
    match addIceCandidate pc d.candidate with
    | Except.ok pc₁ => pc₁
    | Except.error _ => pc
  else pc

/-- `setupICECandidateListener` from the source: the subscription delivers a
sequence of `added` changes and each one is applied with the catch-all
handler; there is no record of which documents were already applied. -/
def listenerDeliver (slot : String) (pc : PeerConn) (ds : List CandDoc) : PeerConn :=
  ds.foldl (applyCandDocCaught slot) pc

/-- `addExistingICECandidates` from the source: a one-time fetch of all
matching candidate documents, each applied with the same catch-all handler
and, again, no record of prior applications. -/
def addExistingICECandidates (slot : String) (pc : PeerConn) (ds : List CandDoc) :
    PeerConn :=
  ds.foldl (applyCandDocCaught slot) pc

/-- `handleNewICECandidate` from the source: look the publishing slot up in
the peer-connection map; when present, call `addIceCandidate` with no
try/catch, so a failure propagates to the caller. -/
def handleNewICECandidate (pcs : List (String × PeerConn)) (d : CandDoc) :
    Except Unit (List (String × PeerConn)) :=
  match alookup d.participantId pcs with
  | none => Except.ok pcs
  | some pc =>
      match addIceCandidate pc d.candidate with
      | Except.ok pc₁ => Except.ok (aset d.participantId pc₁ pcs)
      | Except.error e => Except.error e

/-- The candidates a delivery list actually gets applied: those published by
the peer slot that the transport accepts. -/
def applicableCands (slot : String) (ds : List CandDoc) : List Candidate :=
  (ds.filter (fun d => decide (d.participantId = slot) && d.candidate.valid)).map
    (fun d => d.candidate)

theorem listenerDeliver_addedCandidates (slot : String) (pc : PeerConn)
    (ds : List CandDoc) :
    (listenerDeliver slot pc ds).addedCandidates
      = pc.addedCandidates ++ applicableCands slot ds := by
  induction ds generalizing pc with
  | nil => simp [listenerDeliver, applicableCands]
  | cons d t ih =>
      by_cases hs : d.participantId = slot
      · by_cases hv : d.candidate.valid = true
        · simp [listenerDeliver, applicableCands, applyCandDocCaught,
            addIceCandidate, hs, hv, List.foldl] at ih ⊢
          rw [ih]
          simp
        · have hv₁ : d.candidate.valid = false := by
            cases hc : d.candidate.valid
            · rfl
            · exact absurd hc hv
          simp [listenerDeliver, applicableCands, applyCandDocCaught,
            addIceCandidate, hs, hv₁, List.foldl] at ih ⊢
          rw [ih]
      · simp [listenerDeliver, applicableCands, applyCandDocCaught,
          hs, List.foldl] at ih ⊢
        rw [ih]

/-- An accepted candidate published by the broadcaster slot. -/
def c2cand : Candidate := { payload := "cand0", valid := true }

/-- The `ice-candidates` document carrying `c2cand`. -/
def c2doc : CandDoc := { docId := "d0", participantId := "broadcaster", candidate := c2cand }

/-- A fresh viewer-side connection before candidate exchange. -/
def c2pc : PeerConn := newPeerConn []

/-- Claim C2 counterexample: a candidate document seen both by the
subscription and by the catch-up fetch (the source runs
`setupICECandidateListener` and then `addExistingICECandidates` over the
same collection with no deduplication) is applied to the same connection
twice, refuting at-most-once application. -/
theorem C2_duplicate_application_counterexample :
    ¬ ((addExistingICECandidates "broadcaster"
          (listenerDeliver "broadcaster" c2pc [c2doc]) [c2doc]).addedCandidates.count
        c2cand ≤ 1) := by
  decide

/-- Claim C2 as amended: every delivered matching candidate event invokes
`addIceCandidate` once — there is no deduplication, so running the catch-up
fetch after the subscription over the same documents applies each accepted
candidate twice; failures are caught (only logged) in
`setupICECandidateListener` and `addExistingICECandidates`, but
`handleNewICECandidate` has no catch and propagates an `addIceCandidate`
failure to its caller. -/
theorem C2_amended_per_delivery_application (slot : String) (pc : PeerConn)
    (ds : List CandDoc) (pcs : List (String × PeerConn)) (d : CandDoc)
    (p : PeerConn) (hp : alookup d.participantId pcs = some p)
    (hv : d.candidate.valid = false) :
    (addExistingICECandidates slot (listenerDeliver slot pc ds) ds).addedCandidates
      = pc.addedCandidates ++ applicableCands slot ds ++ applicableCands slot ds
    ∧ handleNewICECandidate pcs d = Except.error () := by
  constructor
  · have h₁ := listenerDeliver_addedCandidates slot pc ds
    have h₂ := listenerDeliver_addedCandidates slot (listenerDeliver slot pc ds) ds
    show (listenerDeliver slot (listenerDeliver slot pc ds) ds).addedCandidates = _
    rw [h₂, h₁]
  · unfold handleNewICECandidate
    rw [hp]
    simp [addIceCandidate, hv]

/-- A rejected candidate document published by the viewer slot. -/
def c2badDoc : CandDoc :=
  { docId := "d1", participantId := "viewer",
    candidate := { payload := "bad", valid := false } }

/-- Witness for the amended C2 at concrete inputs: one accepted candidate
delivered through both paths lands twice, and the uncaught handler errors on
a rejected candidate for a known slot. -/
theorem C2_amended_per_delivery_application_witness :
    alookup c2badDoc.participantId [("viewer", c2pc)] = some c2pc
    ∧ c2badDoc.candidate.valid = false
    ∧ (addExistingICECandidates "broadcaster"
          (listenerDeliver "broadcaster" c2pc [c2doc]) [c2doc]).addedCandidates
        = c2pc.addedCandidates
            ++ applicableCands "broadcaster" [c2doc]
            ++ applicableCands "broadcaster" [c2doc]
    ∧ handleNewICECandidate [("viewer", c2pc)] c2badDoc = Except.error () := by
  have h := C2_amended_per_delivery_application "broadcaster" c2pc [c2doc]
    [("viewer", c2pc)] c2badDoc c2pc (by decide) (by decide)
  exact ⟨by decide, by decide, h.1, h.2⟩

/-- Claim C9: an ICE candidate event whose `participantId` matches no key of
the peer-connection map is silently dropped — `handleNewICECandidate`
returns without error and the map (and hence every connection and the
untouched remote-stream set) is unchanged. -/
theorem C9_unknown_slot_candidate_noop (pcs : List (String × PeerConn))
    (d : CandDoc) (h : alookup d.participantId pcs = none) :
    handleNewICECandidate pcs d = Except.ok pcs := by
  unfold handleNewICECandidate
  rw [h]

/-- Witness for C9: a candidate published by the viewer slot arriving at a
map that only knows the broadcaster slot leaves everything unchanged. -/
theorem C9_unknown_slot_candidate_noop_witness :
    alookup c2doc.participantId [("viewer", c2pc)] = none
    ∧ handleNewICECandidate [("viewer", c2pc)] c2doc
        = Except.ok [("viewer", c2pc)] := by
  refine ⟨by decide, ?_⟩
  exact C9_unknown_slot_candidate_noop [("viewer", c2pc)] c2doc (by decide)

/-- One `added` change handled inside `setupAnswerListener`: the source
calls `pc.setRemoteDescription(new RTCSessionDescription(answer))`
unconditionally — there is no check whether a remote description was already
set. -/
def handleAnswerAdded (pc : PeerConn) (ans : SessionDesc) : PeerConn :=
  { pc with remoteDesc := some ans, setRemoteCount := pc.setRemoteCount + 1 }

/-- `setupAnswerListener` from the source: every `added` change of the
answers collection goes through `handleAnswerAdded`. -/
def answersDeliver (pc : PeerConn) (events : List SessionDesc) : PeerConn :=
  events.foldl handleAnswerAdded pc

/-- The answer session description used in the C5 scenario. -/
def c5ans : SessionDesc := { sdp := "sdpA", descType := "answer" }

/-- A host-side connection whose remote description is already set to
`c5ans`. -/
def c5pc : PeerConn :=
  { closed := false, localDesc := none, remoteDesc := some c5ans,
    setRemoteCount := 1, addedCandidates := [], senders := [] }

/-- Claim C5 counterexample: on a connection whose remote description is
already set, a duplicate `added` event for the same answer document is not
ignored — the handler changes the connection (it re-invokes
`setRemoteDescription`). -/
theorem C5_duplicate_answer_counterexample :
    c5pc.remoteDesc = some c5ans ∧ handleAnswerAdded c5pc c5ans ≠ c5pc := by
  decide

/-- Claim C5 as amended: an `added` event on the answers collection sets the
connection's remote description, but handling is not idempotent — there is
no ignore-if-already-set guard, so `setRemoteDescription` is re-invoked once
per event, duplicates included. -/
theorem C5_amended_answer_not_idempotent (pc : PeerConn) (ans : SessionDesc)
    (events : List SessionDesc) :
    (handleAnswerAdded pc ans).remoteDesc = some ans
    ∧ (answersDeliver pc events).setRemoteCount
        = pc.setRemoteCount + events.length := by
  refine ⟨rfl, ?_⟩
  induction events generalizing pc with
  | nil => simp [answersDeliver]
  | cons e t ih =>
      have h := ih (handleAnswerAdded pc e)
      simp [answersDeliver, List.foldl] at h ⊢
      rw [h]
      simp [handleAnswerAdded]
      omega

/-- Which store subscriptions the component holds. Only the room-status
listener's unsubscribe function is ever stored (`roomStatusUnsubscribe`
ref); the unsubscribers returned for the participant-status, participants,
ice-candidates and answers listeners are discarded by the source, so those
subscriptions can never be cancelled. Each flag is true while the
subscription is active. -/
structure ListenerState where
  roomStatusUnsub : Bool
  participantStatusSub : Bool
  participantsSub : Bool
  iceCandidatesSub : Bool
  answersSub : Bool
deriving DecidableEq

/-- A `participant-status` document (`camera`, `audio`). -/
structure StatusDoc where
  camera : Bool
  audio : Bool
deriving DecidableEq

/-- The room document fields this code reads or writes (`status`,
`endedAt`). -/
structure RoomRecord where
  status : String
  endedAt : Option Nat
deriving DecidableEq

/-- The Firestore documents of the room this component touches: the room
document itself, both `participant-status` documents, the broadcaster offer,
the viewer answer, and the ice-candidates collection. -/
structure Store where
  room : Option RoomRecord
  broadcasterStatus : Option StatusDoc
  viewerStatus : Option StatusDoc
  offerBroadcaster : Option SessionDesc
  answerViewer : Option SessionDesc
  iceDocs : List CandDoc
deriving DecidableEq

/-- The `VideoCall` component state the teardown and join paths touch. -/
structure VCState where
  listeners : ListenerState
  peerConnections : List (String × PeerConn)
  remoteStreams : List MediaStream
  localStream : Option MediaStream
  streamsUpdateKey : Nat
  isBroadcaster : Bool
  roomDocId : Option String
  isConnected : Bool
deriving DecidableEq

/-- Component state plus the store it signals through. -/
structure Full where
  vc : VCState
  store : Store
deriving DecidableEq

/-- `track.stop()` applied to every track of a stream. -/
def stopAllTracks (ms : MediaStream) : MediaStream :=
  { ms with tracks := ms.tracks.map (fun t => { t with stopped := true }) }

/-- `updateParticipantStatus` from the source: returns untouched when
`roomDocId` is unset, otherwise overwrites this role's status document. -/
def updateParticipantStatus (isBroadcaster : Bool) (roomDocId : Option String)
    (camera audio : Bool) (st : Store) : Store :=
  match roomDocId with
  | none => st
  | some _ =>
      if isBroadcaster then
        { st with broadcasterStatus := some { camera := camera, audio := audio } }
      else
        { st with viewerStatus := some { camera := camera, audio := audio } }

/-- `cleanupConnections` from the source: call the stored room-status
unsubscriber (the only one retained) and null it, close every peer
connection and empty the map, empty the remote-stream list and bump the
render key, stop all local tracks, and delete this role's status document
when `roomDocId` is set. The four other subscriptions have no stored
unsubscriber and are left active. -/
def cleanupConnections (f : Full) : Full :=
  { vc :=
      { f.vc with
        listeners := { f.vc.listeners with roomStatusUnsub := false },
        peerConnections := [],
        remoteStreams := [],
        streamsUpdateKey := f.vc.streamsUpdateKey + 1,
        localStream := f.vc.localStream.map stopAllTracks },
    store :=
      match f.vc.roomDocId with
      | none => f.store
      | some _ =>
          if f.vc.isBroadcaster then { f.store with broadcasterStatus := none }
          else { f.store with viewerStatus := none } }

/-- `updateRoomStatus` from the source: if the room document exists, set its
status to inactive with a server end timestamp (`t`). -/
def updateRoomStatus (t : Nat) (st : Store) : Store :=
  match st.room with
  | none => st
  | some _ => { st with room := some { status := "inactive", endedAt := some t } }

/-- `hangUp` from the source: run `cleanupConnections`; if this participant
is the broadcaster and `roomDocId` is set, run `updateRoomStatus`; then
leave the connected state. -/
def hangUp (t : Nat) (f : Full) : Full :=
  let f₁ := cleanupConnections f
  let f₂ :=
    if f.vc.isBroadcaster && f.vc.roomDocId.isSome then
      { f₁ with store := updateRoomStatus t f₁.store }
    else f₁
  { f₂ with vc := { f₂.vc with isConnected := false } }

/-- The teardown actions in source order, for stating which happens
first. -/
inductive TeardownStep where
  | unsubRoomStatus
  | closePeer (slot : String)
  | clearStreams
  | stopLocalTracks
  | deleteStatusDoc
  | markRoomInactive
deriving DecidableEq

/-- The sequence of teardown actions `cleanupConnections` performs, in the
source's statement order. -/
def cleanupTrace (f : Full) : List TeardownStep :=
  (if f.vc.listeners.roomStatusUnsub then [TeardownStep.unsubRoomStatus] else [])
  ++ f.vc.peerConnections.map (fun kv => TeardownStep.closePeer kv.1)
  ++ [TeardownStep.clearStreams]
  ++ (match f.vc.localStream with
      | some _ => [TeardownStep.stopLocalTracks]
      | none => [])
  ++ (match f.vc.roomDocId with
      | some _ => [TeardownStep.deleteStatusDoc]
      | none => [])

/-- The sequence of teardown actions `hangUp` performs. -/
def hangUpTrace (f : Full) : List TeardownStep :=
  cleanupTrace f
  ++ (if f.vc.isBroadcaster && f.vc.roomDocId.isSome && f.store.room.isSome then
        [TeardownStep.markRoomInactive]
      else [])

/-- A connected broadcaster-side state with every listener active, one live
peer connection, one remote stream and a live local stream. -/
def c3full : Full :=
  { vc :=
      { listeners :=
          { roomStatusUnsub := false, participantStatusSub := true,
            participantsSub := true, iceCandidatesSub := true,
            answersSub := true },
        peerConnections := [("broadcaster", newPeerConn [])],
        remoteStreams := [{ id := "str-viewer-1", tracks := [] }],
        localStream :=
          some { id := "local",
                 tracks := [{ kind := "video", enabled := true, stopped := false }] },
        streamsUpdateKey := 0,
        isBroadcaster := true,
        roomDocId := some "roomdoc",
        isConnected := true },
    store :=
      { room := some { status := "active", endedAt := none },
        broadcasterStatus := some { camera := true, audio := true },
        viewerStatus := none,
        offerBroadcaster := some { sdp := "sdpO", descType := "offer" },
        answerViewer := none,
        iceDocs := [] } }

/-- Claim C3 counterexample: the hang-up path does not unsubscribe all
active store subscriptions — the participant-status, participants,
ice-candidates and answers subscriptions are active before hang-up and are
still active afterwards, because the source never stores their unsubscribe
functions. -/
theorem C3_subscriptions_survive_counterexample :
    c3full.vc.listeners.participantStatusSub = true
    ∧ c3full.vc.listeners.participantsSub = true
    ∧ c3full.vc.listeners.iceCandidatesSub = true
    ∧ c3full.vc.listeners.answersSub = true
    ∧ (hangUp 7 c3full).vc.listeners.participantStatusSub = true
    ∧ (hangUp 7 c3full).vc.listeners.participantsSub = true
    ∧ (hangUp 7 c3full).vc.listeners.iceCandidatesSub = true
    ∧ (hangUp 7 c3full).vc.listeners.answersSub = true := by
  decide

/-- Claim C3 as amended: the hang-up path unsubscribes only the room-status
subscription (the sole one whose unsubscribe handle the source retains) and
does so before any other teardown step; it then closes every peer connection
and empties the map, empties the remote-stream set, stops all local media
tracks, deletes this participant's own status document, and marks the room
inactive with an end timestamp exactly when this participant is the host;
the four other subscriptions remain active. -/
theorem C3_amended_cleanup_path (f : Full) (t : Nat) (rid : String)
    (hrid : f.vc.roomDocId = some rid) (r : RoomRecord)
    (hroom : f.store.room = some r) :
    (hangUp t f).vc.listeners.roomStatusUnsub = false
    ∧ (f.vc.listeners.roomStatusUnsub = true →
        (hangUpTrace f).head? = some TeardownStep.unsubRoomStatus)
    ∧ (hangUp t f).vc.listeners.participantStatusSub
        = f.vc.listeners.participantStatusSub
    ∧ (hangUp t f).vc.listeners.participantsSub = f.vc.listeners.participantsSub
    ∧ (hangUp t f).vc.listeners.iceCandidatesSub = f.vc.listeners.iceCandidatesSub
    ∧ (hangUp t f).vc.listeners.answersSub = f.vc.listeners.answersSub
    ∧ (hangUp t f).vc.peerConnections = []
    ∧ (hangUp t f).vc.remoteStreams = []
    ∧ (∀ ms, (hangUp t f).vc.localStream = some ms →
        ∀ tr ∈ ms.tracks, tr.stopped = true)
    ∧ (f.vc.isBroadcaster = true → (hangUp t f).store.broadcasterStatus = none)
    ∧ (f.vc.isBroadcaster = false → (hangUp t f).store.viewerStatus = none)
    ∧ (f.vc.isBroadcaster = true →
        (hangUp t f).store.room = some { status := "inactive", endedAt := some t })
    ∧ (f.vc.isBroadcaster = false → (hangUp t f).store.room = f.store.room) := by
  have htr : ∀ ms, (hangUp t f).vc.localStream = some ms →
      ∀ tr ∈ ms.tracks, tr.stopped = true := by
    intro ms hms tr htr
    have : (hangUp t f).vc.localStream = f.vc.localStream.map stopAllTracks := by
      unfold hangUp cleanupConnections
      cases f.vc.isBroadcaster && f.vc.roomDocId.isSome <;> rfl
    rw [this] at hms
    cases hls : f.vc.localStream with
    | none => rw [hls] at hms; simp at hms
    | some ls =>
        rw [hls] at hms
        simp [Option.map] at hms
        rw [← hms] at htr
        simp [stopAllTracks, List.mem_map] at htr
        obtain ⟨u, _, hu⟩ := htr
        rw [← hu]
  cases hb : f.vc.isBroadcaster with
  | true =>
      refine ⟨?_, ?_, ?_, ?_, ?_, ?_, ?_, ?_, htr, ?_, ?_, ?_, ?_⟩ <;>
        simp [hangUp, cleanupConnections, updateRoomStatus, hangUpTrace,
          cleanupTrace, hb, hrid, hroom]
      intro h
      simp [h]
  | false =>
      refine ⟨?_, ?_, ?_, ?_, ?_, ?_, ?_, ?_, htr, ?_, ?_, ?_, ?_⟩ <;>
        simp [hangUp, cleanupConnections, updateRoomStatus, hangUpTrace,
          cleanupTrace, hb, hrid, hroom]
      intro h
      simp [h]

/-- Witness for the amended C3 at the concrete broadcaster state: after
hang-up, the map and stream set are empty, the broadcaster status document
is gone and the room is inactive with the end timestamp, while the
participants subscription survives. -/
theorem C3_amended_cleanup_path_witness :
    c3full.vc.roomDocId = some "roomdoc"
    ∧ c3full.store.room = some { status := "active", endedAt := none }
    ∧ (hangUp 7 c3full).vc.peerConnections = []
    ∧ (hangUp 7 c3full).vc.remoteStreams = []
    ∧ (hangUp 7 c3full).store.broadcasterStatus = none
    ∧ (hangUp 7 c3full).store.room
        = some { status := "inactive", endedAt := some 7 } := by
  have h := C3_amended_cleanup_path c3full 7 "roomdoc" (by decide)
    { status := "active", endedAt := none } (by decide)
  exact ⟨by decide, by decide, h.2.2.2.2.2.2.1, h.2.2.2.2.2.2.2.1,
    h.2.2.2.2.2.2.2.2.2.1 (by decide), h.2.2.2.2.2.2.2.2.2.2.2.1 (by decide)⟩

theorem stopAllTracks_idem (ms : MediaStream) :
    stopAllTracks (stopAllTracks ms) = stopAllTracks ms := by
  unfold stopAllTracks
  simp [List.map_map]

theorem map_stopAllTracks_idem (o : Option MediaStream) :
    (o.map stopAllTracks).map stopAllTracks = o.map stopAllTracks := by
  cases o with
  | none => rfl
  | some ms => simp [stopAllTracks_idem]

theorem map_comp_stopAllTracks (o : Option MediaStream) :
    Option.map (stopAllTracks ∘ stopAllTracks) o = Option.map stopAllTracks o := by
  cases o with
  | none => rfl
  | some ms => simp [stopAllTracks_idem]

/-- Everything the hang-up end state is judged by: the peer-connection map,
streams, listeners, documents, room status, and the connection/role flags.
The stream render key (a UI re-render counter) and the numeric value of the
room's end timestamp (overwritten with the newest server time on each
update) are the only fields excluded. -/
structure TeardownObs where
  peerConnections : List (String × PeerConn)
  remoteStreams : List MediaStream
  localStream : Option MediaStream
  listeners : ListenerState
  broadcasterStatus : Option StatusDoc
  viewerStatus : Option StatusDoc
  roomStatus : Option String
  roomEnded : Bool
  offerBroadcaster : Option SessionDesc
  answerViewer : Option SessionDesc
  isConnected : Bool
  isBroadcaster : Bool
  roomDocId : Option String
deriving DecidableEq

/-- Projection of a full state onto the hang-up-relevant observables. -/
def teardownObs (f : Full) : TeardownObs :=
  { peerConnections := f.vc.peerConnections,
    remoteStreams := f.vc.remoteStreams,
    localStream := f.vc.localStream,
    listeners := f.vc.listeners,
    broadcasterStatus := f.store.broadcasterStatus,
    viewerStatus := f.store.viewerStatus,
    roomStatus := f.store.room.map (fun r => r.status),
    roomEnded := f.store.room.elim false (fun r => r.endedAt.isSome),
    offerBroadcaster := f.store.offerBroadcaster,
    answerViewer := f.store.answerViewer,
    isConnected := f.vc.isConnected,
    isBroadcaster := f.vc.isBroadcaster,
    roomDocId := f.vc.roomDocId }

/-- Claim C4: hang-up is idempotent — from any state, a second invocation
reproduces the end state of the first on every observable the claim names
(all connections closed and the map empty, the remote-stream set empty, the
documents, listeners and flags identical), and the second invocation raises
no error: every operation it performs is total (in particular deleting the
already-deleted status document succeeds, as Firestore deletes of absent
documents do). -/
theorem C4_hangUp_idempotent (f : Full) (t₁ t₂ : Nat) :
    teardownObs (hangUp t₂ (hangUp t₁ f)) = teardownObs (hangUp t₁ f)
    ∧ (hangUp t₁ f).vc.peerConnections = []
    ∧ (hangUp t₁ f).vc.remoteStreams = []
    ∧ (hangUp t₂ (hangUp t₁ f)).vc.peerConnections = []
    ∧ (hangUp t₂ (hangUp t₁ f)).vc.remoteStreams = [] := by
  cases hb : f.vc.isBroadcaster with
  | false =>
      cases hrd : f.vc.roomDocId with
      | none =>
          refine ⟨?_, ?_, ?_, ?_, ?_⟩ <;>
            simp [teardownObs, hangUp, cleanupConnections, updateRoomStatus,
              hb, hrd, map_stopAllTracks_idem, map_comp_stopAllTracks]
      | some rid =>
          refine ⟨?_, ?_, ?_, ?_, ?_⟩ <;>
            simp [teardownObs, hangUp, cleanupConnections, updateRoomStatus,
              hb, hrd, map_stopAllTracks_idem, map_comp_stopAllTracks]
  | true =>
      cases hrd : f.vc.roomDocId with
      | none =>
          refine ⟨?_, ?_, ?_, ?_, ?_⟩ <;>
            simp [teardownObs, hangUp, cleanupConnections, updateRoomStatus,
              hb, hrd, map_stopAllTracks_idem, map_comp_stopAllTracks]
      | some rid =>
          cases hr : f.store.room with
          | none =>
              refine ⟨?_, ?_, ?_, ?_, ?_⟩ <;>
                simp [teardownObs, hangUp, cleanupConnections, updateRoomStatus,
                  hb, hrd, hr, map_stopAllTracks_idem, map_comp_stopAllTracks]
          | some r =>
              refine ⟨?_, ?_, ?_, ?_, ?_⟩ <;>
                simp [teardownObs, hangUp, cleanupConnections, updateRoomStatus,
                  hb, hrd, hr, map_stopAllTracks_idem, map_comp_stopAllTracks]

/-- How `joinCall` ends: in the call, or with the single
`Failed to join call` toast. -/
inductive JoinOutcome where
  | joined
  | joinFailed
deriving DecidableEq

/-- `joinCall` from the source, run by the viewer. In order: overwrite this
role's participant-status document with camera and audio on; fetch
`offers/broadcaster` and throw when it does not exist (the catch shows one
failure toast — the returned count — and leaves everything else as it was);
otherwise create the `viewer` peer connection, set the fetched offer as
remote description, set the created answer (`ans`, produced by the external
transport) as local description, publish it as `answers/viewer`, apply the
catch-up fetch of existing candidates from the peer slot, and become
connected. -/
def joinCall (f : Full) (ans : SessionDesc) (localTracks : List MediaTrack) :
    Full × JoinOutcome × Nat :=
  let st₁ := updateParticipantStatus f.vc.isBroadcaster f.vc.roomDocId true true f.store
  match st₁.offerBroadcaster with
  | none => ({ f with store := st₁ }, JoinOutcome.joinFailed, 1)
  | some o =>
      let peerSlot := if f.vc.isBroadcaster then "viewer" else "broadcaster"
      let pc₀ : PeerConn :=
        { newPeerConn localTracks with
          remoteDesc := some o, setRemoteCount := 1, localDesc := some ans }
      let pc₁ := addExistingICECandidates peerSlot pc₀ st₁.iceDocs
      ({ vc :=
           { f.vc with
             peerConnections := aset "viewer" pc₁ f.vc.peerConnections,
             isConnected := true },
         store := { st₁ with answerViewer := some ans } },
       JoinOutcome.joined, 0)

/-- A viewer about to join a room whose broadcaster has not yet published an
offer. -/
def c6full : Full :=
  { vc :=
      { listeners :=
          { roomStatusUnsub := true, participantStatusSub := true,
            participantsSub := true, iceCandidatesSub := true,
            answersSub := false },
        peerConnections := [],
        remoteStreams := [],
        localStream := some { id := "local", tracks := [] },
        streamsUpdateKey := 0,
        isBroadcaster := false,
        roomDocId := some "roomdoc",
        isConnected := false },
    store :=
      { room := some { status := "active", endedAt := none },
        broadcasterStatus := none,
        viewerStatus := none,
        offerBroadcaster := none,
        answerViewer := none,
        iceDocs := [] } }

/-- The answer description the transport would have produced for C6. -/
def c6ans : SessionDesc := { sdp := "sdpAns", descType := "answer" }

/-- Claim C6 counterexample: when the offer is absent, the failed join does
leave a signaling document of its own behind — the viewer's
participant-status document is written before the offer fetch and is not
rolled back, so the pre-call store state is not restored. -/
theorem C6_leftover_status_doc_counterexample :
    c6full.store.viewerStatus = none
    ∧ (joinCall c6full c6ans []).2.1 = JoinOutcome.joinFailed
    ∧ (joinCall c6full c6ans []).1.store.viewerStatus
        = some { camera := true, audio := true } := by
  decide

/-- Claim C6 as amended: for a viewer with a room reference, the join fails
(with a single failure notification) exactly when the broadcaster's offer
document is absent at fetch time, and on that failure no peer connection is
created, the map is unchanged and the caller does not enter the call — but
the participant-status document written at the start of the failed join
remains in the store; the other documents are untouched. -/
theorem C6_amended_join_failure (f : Full) (ans : SessionDesc)
    (localTracks : List MediaTrack) (rid : String)
    (hrid : f.vc.roomDocId = some rid) (hb : f.vc.isBroadcaster = false) :
    ((joinCall f ans localTracks).2.1 = JoinOutcome.joinFailed
        ↔ f.store.offerBroadcaster = none)
    ∧ (f.store.offerBroadcaster = none →
        (joinCall f ans localTracks).2.2 = 1
        ∧ (joinCall f ans localTracks).1.vc.peerConnections = f.vc.peerConnections
        ∧ (joinCall f ans localTracks).1.vc.isConnected = f.vc.isConnected
        ∧ (joinCall f ans localTracks).1.store.viewerStatus
            = some { camera := true, audio := true }
        ∧ (joinCall f ans localTracks).1.store.offerBroadcaster
            = f.store.offerBroadcaster
        ∧ (joinCall f ans localTracks).1.store.answerViewer = f.store.answerViewer
        ∧ (joinCall f ans localTracks).1.store.room = f.store.room) := by
  have hst : updateParticipantStatus f.vc.isBroadcaster f.vc.roomDocId true true f.store
      = { f.store with viewerStatus := some { camera := true, audio := true } } := by
    simp [updateParticipantStatus, hrid, hb]
  cases ho : f.store.offerBroadcaster with
  | none =>
      refine ⟨by simp [joinCall, hst, ho], ?_⟩
      intro _
      simp [joinCall, hst, ho]
  | some o =>
      refine ⟨by simp [joinCall, hst, ho], ?_⟩
      intro h
      exact absurd h (by simp)

/-- Witness for the amended C6 at the concrete offer-less state. -/
theorem C6_amended_join_failure_witness :
    c6full.vc.roomDocId = some "roomdoc"
    ∧ c6full.vc.isBroadcaster = false
    ∧ c6full.store.offerBroadcaster = none
    ∧ (joinCall c6full c6ans []).2.2 = 1
    ∧ (joinCall c6full c6ans []).1.vc.peerConnections = c6full.vc.peerConnections
    ∧ (joinCall c6full c6ans []).1.vc.isConnected = c6full.vc.isConnected := by
  have h := C6_amended_join_failure c6full c6ans [] "roomdoc" (by decide) (by decide)
  have h₂ := h.2 (by decide)
  exact ⟨by decide, by decide, by decide, h₂.1, h₂.2.1, h₂.2.2.1⟩

/-- A room document as `joinExistingCall` sees it when scanning the `rooms`
collection (`_docs` entries): store id, human room code, status. -/
structure RoomListing where
  id : String
  roomId : String
  status : String
deriving DecidableEq

/-- The active-room lookup inside `joinExistingCall`: scan all room
documents for one whose code matches and whose status is exactly
`active`. -/
def findActiveRoom (docs : List RoomListing) (code : String) : Option RoomListing :=
  docs.find? (fun d => d.roomId == code && d.status == "active")

/-- `CallScreen` state touched by `joinExistingCall`. -/
structure CallScreenState where
  roomId : String
  roomDocID : String
  isInCall : Bool
  isBroadcaster : Bool
deriving DecidableEq

/-- The user-facing messages `joinExistingCall` can show. -/
inductive CSToast where
  | enterRoomId
  | roomNotFound
deriving DecidableEq

/-- The source's blank-code test `!roomId.trim()`: true exactly when the
entered code is empty or all whitespace (its trim is the empty string). -/
def isBlank (s : String) : Bool :=
  s.toList.all (fun c => c.isWhitespace)

/-- `joinExistingCall` from the source: reject a blank code, otherwise look
for an active room with the entered code; when none exists show the
room-not-found message and stay on the screen; when found store its document
id and enter the call as viewer. The final number counts peer connections
created by this operation — always zero, since the `VideoCall` component
mounts only after `isInCall` becomes true. -/
def joinExistingCall (docs : List RoomListing) (cs : CallScreenState) :
    CallScreenState × Option CSToast × Nat :=
  if isBlank cs.roomId then (cs, some CSToast.enterRoomId, 0)
  else
    match findActiveRoom docs cs.roomId with
    | none => (cs, some CSToast.roomNotFound, 0)
    | some r =>
        ({ cs with roomDocID := r.id, isBroadcaster := false, isInCall := true },
         none, 0)

/-- Claim C7: the join-time lookup returns a room only when its status is
exactly `active` and its code matches; and for a non-blank code with no
matching active room, `joinExistingCall` shows the room-not-found message,
creates no peer connection, and leaves the screen state (in particular
`isInCall`) unchanged. -/
theorem C7_join_requires_active_room (docs : List RoomListing) (code : String)
    (cs : CallScreenState) :
    (∀ r, findActiveRoom docs code = some r →
        r.status = "active" ∧ r.roomId = code)
    ∧ (isBlank cs.roomId = false → findActiveRoom docs cs.roomId = none →
        (joinExistingCall docs cs).1 = cs
        ∧ (joinExistingCall docs cs).2.1 = some CSToast.roomNotFound
        ∧ (joinExistingCall docs cs).2.2 = 0
        ∧ (joinExistingCall docs cs).1.isInCall = cs.isInCall) := by
  constructor
  · intro r hr
    have hp := List.find?_some hr
    simp only [Bool.and_eq_true, beq_iff_eq] at hp
    exact ⟨hp.2, hp.1⟩
  · intro hblank hnone
    unfold joinExistingCall
    rw [hblank, hnone]
    exact ⟨rfl, rfl, rfl, rfl⟩

/-- A rooms collection with one inactive room under the sought code and one
active room under another code. -/
def c7docs : List RoomListing :=
  [{ id := "d1", roomId := "9999", status := "inactive" },
   { id := "d2", roomId := "1234", status := "active" }]

/-- A guest who typed room code 9999. -/
def c7cs : CallScreenState :=
  { roomId := "9999", roomDocID := "", isInCall := false, isBroadcaster := false }

/-- Witness for C7: joining code 9999 with no matching active room shows the
room-not-found message and does not enter the call. -/
theorem C7_join_requires_active_room_witness :
    isBlank c7cs.roomId = false
    ∧ findActiveRoom c7docs c7cs.roomId = none
    ∧ (joinExistingCall c7docs c7cs).2.1 = some CSToast.roomNotFound
    ∧ (joinExistingCall c7docs c7cs).1.isInCall = false := by
  have h := (C7_join_requires_active_room c7docs "9999" c7cs).2
    (by decide) (by decide)
  exact ⟨by decide, by decide, h.2.1, h.2.2.2.trans (by decide)⟩

/-- A write to some `rooms/{roomDocPath}/offers/{slot}` document. -/
structure OfferWrite where
  roomDocPath : String
  slot : String
  desc : SessionDesc
deriving DecidableEq

/-- `handleNewParticipant` from the source: on the host side, create a fresh
peer connection for the new slot, set the created offer (`offer`, produced
by the external transport) as its local description, and write the offer
document. The source addresses that document as
`collection(rooms).doc(roomId)` — the human room code — even though the
room the host created lives at the auto-generated id held in `roomDocId`
(in scope but unused here, exactly as in the source). -/
def handleNewParticipant (isBroadcaster : Bool) (roomId : String)
    (_roomDocId : Option String) (localTracks : List MediaTrack)
    (pcs : List (String × PeerConn)) (offer : SessionDesc)
    (participantId : String) : List (String × PeerConn) × List OfferWrite :=
  if isBroadcaster then
    (aset participantId { newPeerConn localTracks with localDesc := some offer } pcs,
     [{ roomDocPath := roomId, slot := participantId, desc := offer }])
  else (pcs, [])

/-- The offer the host's transport produces for the new slot in C8. -/
def c8offer : SessionDesc := { sdp := "sdpOffer", descType := "offer" }

/-- Claim C8 (code bug): a host whose created room document is `abc123`
(room code 4821) handles a new participants entry `p1`: a fresh connection
keyed `p1` is created and an offer keyed `p1` is published, but the write
goes to `rooms/4821` — the room code used as a document id — and not under
`rooms/abc123`, the room the host created, so the document it writes is one
no reader of this room ever fetches. -/
theorem C8_offer_written_under_room_code :
    alookup "p1"
        (handleNewParticipant true "4821" (some "abc123") [] [] c8offer "p1").1
      = some { newPeerConn [] with localDesc := some c8offer }
    ∧ (handleNewParticipant true "4821" (some "abc123") [] [] c8offer "p1").2
        = [{ roomDocPath := "4821", slot := "p1", desc := c8offer }]
    ∧ ((handleNewParticipant true "4821" (some "abc123") [] [] c8offer "p1").2.map
        (fun w => w.roomDocPath)) = ["4821"]
    ∧ ¬ (("4821" : String) = "abc123") := by
  decide

/-- Component state touched by `toggleCamera` and `toggleVideo`. -/
structure MediaState where
  isCameraEnabled : Bool
  isAudioEnabled : Bool
  isFrontCamera : Bool
  localStream : Option MediaStream
  peerConnections : List (String × PeerConn)
  ownStatus : Option StatusDoc
deriving DecidableEq

/-- `newStream.getVideoTracks()[0]`. -/
def firstVideoTrack (ms : MediaStream) : Option MediaTrack :=
  ms.tracks.find? (fun t => t.kind == "video")

/-- Replace the track of the first video sender, when one exists. -/
def replaceFirstVideoSender (nt : MediaTrack) : List MediaTrack → List MediaTrack
  | [] => []
  | t :: ts =>
      if t.kind == "video" then nt :: ts else t :: replaceFirstVideoSender nt ts

/-- `updateVideoTrackInConnections` applied to one connection: find the
video sender and hand it the new stream's first video track. -/
def replaceVideoTrack (pc : PeerConn) (nt : Option MediaTrack) : PeerConn :=
  match nt with
  | none => pc
  | some t => { pc with senders := replaceFirstVideoSender t pc.senders }

/-- `toggleCamera` from the source (success path; `newStream` is what
`getUserMedia` returned for the opposite facing mode): first
`setIsCameraEnabled(true)` unconditionally; then, when a local stream
exists, stop its current video track, swap the video track of every peer
connection, adopt the new stream and flip the facing flag. No participant
status update is published anywhere on this path. -/
def toggleCamera (s : MediaState) (newStream : MediaStream) : MediaState :=
  let s₁ := { s with isCameraEnabled := true }
  match s₁.localStream with
  | none => s₁
  | some _ =>
      { s₁ with
        peerConnections :=
          s₁.peerConnections.map
            (fun kv => (kv.1, replaceVideoTrack kv.2 (firstVideoTrack newStream))),
        localStream := some newStream,
        isFrontCamera := !s₁.isFrontCamera }

/-- `toggleVideo` from the source: flip the camera flag on the existing
video tracks and publish the new flags to the status document. -/
def toggleVideo (s : MediaState) : MediaState :=
  match s.localStream with
  | none => s
  | some ls =>
      let nc := !s.isCameraEnabled
      { s with
        localStream :=
          some { ls with
                 tracks := ls.tracks.map
                   (fun t => if t.kind == "video" then { t with enabled := nc } else t) },
        isCameraEnabled := nc,
        ownStatus := some { camera := nc, audio := s.isAudioEnabled } }

/-- Claim C10: whatever the camera-enabled flag was before — including after
it was turned off through `toggleVideo` — a successful `toggleCamera` leaves
it true, while the published participant-status document is not updated on
that path. -/
theorem C10_toggleCamera_forces_camera_on (s : MediaState) (ns : MediaStream) :
    (toggleCamera s ns).isCameraEnabled = true
    ∧ (toggleCamera s ns).ownStatus = s.ownStatus
    ∧ (toggleCamera (toggleVideo s) ns).isCameraEnabled = true := by
  refine ⟨?_, ?_, ?_⟩
  · unfold toggleCamera
    cases s.localStream <;> rfl
  · unfold toggleCamera
    cases s.localStream <;> rfl
  · unfold toggleCamera
    cases (toggleVideo s).localStream <;> rfl

end Holostream
